import Mathlib

/-!
Verification of the MLOPS benchmark / regression / remediation pipeline.

This file gives a shallow embedding, over `ℚ`, of the three Python modules
that carry the pipeline's logic:

* `src/bench/run_bench.py`  — load driver and statistics aggregation
  (`send_request`, `run_benchmark`);
* `src/bench/compare.py`    — baseline regression comparison
  (`compare_results`);
* `src/remediation/watcher.py` — threshold rules and remediation planning
  (`RemediationWatcher.analyze_metrics`, `should_remediate`).

Machine floats are modelled as exact rationals.  Python's `round(x, d)`
(round-half-to-even) is modelled by `roundQ`, and `f"{x:.df}"` formatting by
`decFmt`.  Wall-clock readings (per-request elapsed time, total duration,
timestamp string) are inputs of the model, since the Python code obtains them
from the ambient clock.
-/

set_option autoImplicit false

namespace MLOps

/-- Round a rational to the nearest integer, ties to even — the rounding mode
of Python's builtin `round` (and of `f"{x:.df}"` formatting). -/
def rnearest (x : ℚ) : ℤ :=
  let f := ⌊x⌋
  let frac := x - (f : ℚ)
  if frac < 1/2 then f
  else if 1/2 < frac then f + 1
  else if f % 2 = 0 then f else f + 1

/-- Model of Python `round(x, d)`: round to `d` decimal places, half to even. -/
def roundQ (d : ℕ) (x : ℚ) : ℚ :=
  (rnearest (x * 10 ^ d) : ℚ) / 10 ^ d

/-- Pad a string with leading zero characters up to length `d`. -/
def padZeros (s : String) (d : ℕ) : String :=
  String.mk (List.replicate (d - s.length) '0') ++ s

/-- Model of Python fixed-point formatting `f"{x:.df}"`. -/
def decFmt (d : ℕ) (x : ℚ) : String :=
  let scaled := rnearest (x * 10 ^ d)
  let sign := if scaled < 0 then "-" else ""
  let n := scaled.natAbs
  if d = 0 then sign ++ toString n
  else sign ++ toString (n / 10 ^ d) ++ "." ++ padZeros (toString (n % 10 ^ d)) d

/-! ## Load driver: `src/bench/run_bench.py` -/

/-- Per-request outcome dictionary built by `send_request`
(`run_bench.py` lines 55-93). -/
structure RequestOutcome where
  request_id : ℕ
  success : Bool
  latency_ms : ℚ
  status_code : ℕ
  tokens_per_sec : ℚ
  error : Option String
deriving Repr, DecidableEq

/-- Result of one HTTP round trip, as observed by `send_request`
(`run_bench.py` lines 49-93): a response with a status code, body text and an
optional parsed `tokens_per_sec` field; a `requests.exceptions.Timeout`; or
any other exception, carrying its stringified form. -/
inductive TransportResult where
  | ok (status_code : ℕ) (bodyText : String) (tokens_per_sec : Option ℚ)
  | timeout
  | exc (msg : String)
deriving Repr, DecidableEq

/-- Error string recorded on timeout (`run_bench.py` line 81). -/
def timeoutMsg : String := "Request timeout"

/-- Error string recorded on a non-200 response (`run_bench.py` line 70):
the status code followed by the first 100 characters of the body. -/
def httpErrorMsg (status_code : ℕ) (bodyText : String) : String :=
  "HTTP " ++ toString status_code ++ ": " ++ bodyText.take 100

/-- Message of the degenerate all-failed summary (`run_bench.py` line 165). -/
def allFailedMsg : String := "All requests failed"

/-- Model of `send_request` (`run_bench.py` lines 35-93).  `elapsed_ms` is the
wall-clock time that elapsed until the response / timeout / exception was
observed.  Every branch of the Python function, including the two `except`
clauses, returns an outcome dictionary, so the model is a total function:
no exception propagates out of a single request. -/
def send_request (request_id : ℕ) (elapsed_ms : ℚ) : TransportResult → RequestOutcome
  | TransportResult.ok status body tps =>
      if status = 200 then
        { request_id := request_id, success := true, latency_ms := elapsed_ms,
          status_code := status, tokens_per_sec := tps.getD 0, error := none }
      else
        { request_id := request_id, success := false, latency_ms := elapsed_ms,
          status_code := status, tokens_per_sec := 0,
          error := some (httpErrorMsg status body) }
  | TransportResult.timeout =>
      { request_id := request_id, success := false, latency_ms := elapsed_ms,
        status_code := 0, tokens_per_sec := 0, error := some timeoutMsg }
  | TransportResult.exc msg =>
      { request_id := request_id, success := false, latency_ms := elapsed_ms,
        status_code := 0, tokens_per_sec := 0, error := some msg }

/-- Model of Python `statistics.median`: middle element of the sorted data for
odd length, mean of the two middle elements for even length. -/
def pyMedian (data : List ℚ) : ℚ :=
  let s := data.insertionSort (· ≤ ·)
  let n := s.length
  if n % 2 = 1 then s.getD (n / 2) 0
  else (s.getD (n / 2 - 1) 0 + s.getD (n / 2) 0) / 2

/-- Model of Python `statistics.mean`. -/
def pyMean (data : List ℚ) : ℚ := data.sum / data.length

/-- Sample variance `Σ (x - mean)² / (n - 1)`, the square of Python's
`statistics.stdev`.  The standard deviation itself is irrational in general,
so the summary model stores this square instead; squaring is injective on
nonnegative reals, hence every equality or determinism statement about the
summary is unaffected. -/
def sampleVarianceQ (data : List ℚ) : ℚ :=
  ((data.map fun x => (x - pyMean data) ^ 2).sum) / ((data.length : ℚ) - 1)

/-- Latency statistics block of the full benchmark summary
(`run_bench.py` lines 201-210).  All fields except `stdev_sq_ms` are stored
rounded to two decimals, exactly as in the source; `stdev_sq_ms` holds the
square of the source's `stdev_ms` (see `sampleVarianceQ`), unrounded. -/
structure LatencyStats where
  min_ms : ℚ
  max_ms : ℚ
  mean_ms : ℚ
  median_ms : ℚ
  p50_ms : ℚ
  p95_ms : ℚ
  p99_ms : ℚ
  stdev_sq_ms : ℚ
deriving Repr, DecidableEq

/-- The JSON document returned by `run_benchmark` (`run_bench.py` lines
162-170 for the degenerate branch, 191-213 for the full branch).  Fields that
appear in only one of the two branches are `Option`s; `none` models an absent
key.  `errorMsg` models the `"error"` key of the degenerate branch. -/
structure RunDoc where
  timestamp : Option String
  base_url : Option String
  total_requests : ℕ
  successful_requests : ℕ
  failed_requests : ℕ
  concurrency : Option ℕ
  total_duration_s : Option ℚ
  throughput_rps : Option ℚ
  error_rate : ℚ
  latency_stats : Option LatencyStats
  avg_tokens_per_sec : Option ℚ
  errors : Option (List (ℕ × Option String))
  errorMsg : Option String
deriving Repr, DecidableEq

/-- Statistics-aggregation phase of `run_benchmark` (`run_bench.py` lines
156-215): partition outcomes by success, return the degenerate summary if no
outcome succeeded, otherwise sort the successful latencies ascending and
compute percentiles, throughput, error rate and token statistics.
`timestamp` is the `time.strftime` reading taken at summary creation
(line 192) and `total_duration_s` the measured wall-clock duration. -/
def summarize (results : List RequestOutcome) (num_requests : ℕ)
    (base_url timestamp : String) (total_duration_s : ℚ) (concurrency : ℕ) :
    RunDoc :=
  let successful_results := results.filter fun r => r.success
  let failed_results := results.filter fun r => !r.success
  if successful_results.isEmpty then
    { timestamp := none, base_url := none, total_requests := num_requests,
      successful_requests := 0, failed_requests := failed_results.length,
      concurrency := none, total_duration_s := none, throughput_rps := none,
      error_rate := 1, latency_stats := none, avg_tokens_per_sec := none,
      errors := none, errorMsg := some allFailedMsg }
  else
    let latencies := (successful_results.map fun r => r.latency_ms).insertionSort (· ≤ ·)
    let p50_latency := pyMedian latencies
    let p95_idx := (⌊(latencies.length : ℚ) * (95 / 100)⌋).toNat
    let p95_latency :=
      if p95_idx < latencies.length then latencies.getD p95_idx 0
      else latencies.getD (latencies.length - 1) 0
    let p99_idx := (⌊(latencies.length : ℚ) * (99 / 100)⌋).toNat
    let p99_latency :=
      if p99_idx < latencies.length then latencies.getD p99_idx 0
      else latencies.getD (latencies.length - 1) 0
    let throughput_rps :=
      if 0 < total_duration_s then (successful_results.length : ℚ) / total_duration_s else 0
    let error_rate := (failed_results.length : ℚ) / (num_requests : ℚ)
    let avg_tokens_per_sec := pyMean (successful_results.map fun r => r.tokens_per_sec)
    { timestamp := some timestamp, base_url := some base_url,
      total_requests := num_requests,
      successful_requests := successful_results.length,
      failed_requests := failed_results.length,
      concurrency := some concurrency,
      total_duration_s := some (roundQ 2 total_duration_s),
      throughput_rps := some (roundQ 2 throughput_rps),
      error_rate := roundQ 4 error_rate,
      latency_stats := some
        { min_ms := roundQ 2 (latencies.min?.getD 0),
          max_ms := roundQ 2 (latencies.max?.getD 0),
          mean_ms := roundQ 2 (pyMean latencies),
          median_ms := roundQ 2 p50_latency,
          p50_ms := roundQ 2 p50_latency,
          p95_ms := roundQ 2 p95_latency,
          p99_ms := roundQ 2 p99_latency,
          stdev_sq_ms := if 1 < latencies.length then sampleVarianceQ latencies else 0 },
      avg_tokens_per_sec := some (roundQ 2 avg_tokens_per_sec),
      errors := some (failed_results.map fun r => (r.request_id, r.error)),
      errorMsg := none }

/-- Request-generation phase of `run_benchmark` (`run_bench.py` lines
111-115): requests are numbered from 1 and cycle through the prompt list via
`prompts[i % len(prompts)]`.  With an empty prompt list and at least one
request, Python's `i % 0` raises an uncaught `ZeroDivisionError`, modelled by
`none`; with `num_requests = 0` the loop body never runs and the (empty)
request list is produced even for an empty prompt list. -/
def genRequests {α : Type} (prompts : List α) (num_requests : ℕ) :
    Option (List (ℕ × α)) :=
  match prompts with
  | [] => if num_requests = 0 then some [] else none
  | p :: ps =>
      some ((List.range num_requests).map fun i =>
        (i + 1, (p :: ps).getD (i % (p :: ps).length) p))

/-- Model of `run_benchmark` (`run_bench.py` lines 96-215).  `net` is the
external world: for each request id and prompt it yields the elapsed
wall-clock milliseconds and the transport-level result of that request.
Under `concurrency > 1` the source collects outcomes in completion order;
the model keeps request order, which agrees with the source for
`concurrency == 1` and differs for larger concurrency only in the order of
the `errors` list (all aggregate statistics are order-independent). -/
def run_benchmark {α : Type} (net : ℕ → α → ℚ × TransportResult)
    (prompts : List α) (num_requests concurrency : ℕ)
    (base_url timestamp : String) (total_duration_s : ℚ) : Option RunDoc :=
  (genRequests prompts num_requests).map fun reqs =>
    summarize (reqs.map fun q => send_request q.1 (net q.1 q.2).1 (net q.1 q.2).2)
      num_requests base_url timestamp total_duration_s concurrency

/-! ## Result documents read back from disk

`compare.py` and `watcher.py` both parse a results JSON file and read every
metric through `dict.get(key, 0)`, so each key may be absent.  The structures
below model the document over the keys those modules read; `none` models an
absent key. -/

/-- The `"latency_stats"` sub-document as read by `compare.py` (lines 57-58,
77-78) and `watcher.py` (lines 81-83). -/
structure LatencyStatsDoc where
  p50_ms : Option ℚ
  p95_ms : Option ℚ
  p99_ms : Option ℚ
deriving Repr, DecidableEq

/-- A results document over the keys read by `compare_results` and
`analyze_metrics`. -/
structure ResultsDoc where
  total_requests : Option ℕ
  error_rate : Option ℚ
  throughput_rps : Option ℚ
  failed_requests : Option ℕ
  latency_stats : Option LatencyStatsDoc
deriving Repr, DecidableEq

/-- Model of `doc.get("error_rate", 0)`. -/
def getErrorRate (d : ResultsDoc) : ℚ := d.error_rate.getD 0

/-- Model of `doc.get("throughput_rps", 0)`. -/
def getThroughput (d : ResultsDoc) : ℚ := d.throughput_rps.getD 0

/-- Model of `doc.get("failed_requests", 0)`. -/
def getFailed (d : ResultsDoc) : ℕ := d.failed_requests.getD 0

/-- Model of `doc.get("latency_stats", {})`. -/
def getLatStats (d : ResultsDoc) : LatencyStatsDoc :=
  d.latency_stats.getD { p50_ms := none, p95_ms := none, p99_ms := none }

/-- Model of `doc.get("latency_stats", {}).get("p50_ms", 0)`. -/
def getP50 (d : ResultsDoc) : ℚ := (getLatStats d).p50_ms.getD 0

/-- Model of `doc.get("latency_stats", {}).get("p95_ms", 0)`. -/
def getP95 (d : ResultsDoc) : ℚ := (getLatStats d).p95_ms.getD 0

/-- Model of `doc.get("latency_stats", {}).get("p99_ms", 0)`. -/
def getP99 (d : ResultsDoc) : ℚ := (getLatStats d).p99_ms.getD 0

/-! ## Regression comparison: `src/bench/compare.py` -/

/-- Fail-severity issue text of rule 1 (`compare.py` lines 45-48). -/
def errorRateFailIssue (cer ber : ℚ) : String :=
  "❌ ERROR RATE EXCEEDS 1%: " ++ decFmt 2 (cer * 100) ++ "% (baseline: "
    ++ decFmt 2 (ber * 100) ++ "%)"

/-- Warn-severity issue text of rule 1 (`compare.py` lines 51-54). -/
def errorRateWarnIssue (cer ber : ℚ) : String :=
  "⚠️  Error rate increased significantly: " ++ decFmt 2 (cer * 100)
    ++ "% (baseline: " ++ decFmt 2 (ber * 100) ++ "%)"

/-- Fail-severity issue text of rule 2 (`compare.py` lines 64-68). -/
def p95FailIssue (reg cp95 bp95 : ℚ) : String :=
  "❌ P95 LATENCY REGRESSED BY " ++ decFmt 1 (reg * 100) ++ "%: "
    ++ decFmt 2 cp95 ++ "ms vs " ++ decFmt 2 bp95 ++ "ms baseline (threshold: 20%)"

/-- Warn-severity issue text of rule 2 (`compare.py` lines 71-74). -/
def p95WarnIssue (reg cp95 bp95 : ℚ) : String :=
  "⚠️  P95 latency increased by " ++ decFmt 1 (reg * 100) ++ "%: "
    ++ decFmt 2 cp95 ++ "ms vs " ++ decFmt 2 bp95 ++ "ms baseline"

/-- Info-severity issue text of rule 3 (`compare.py` lines 83-87). -/
def p50InfoIssue (chg cp50 bp50 : ℚ) : String :=
  (if 0 < chg then "📈" else "📉") ++ " P50 latency changed by "
    ++ decFmt 1 (chg * 100) ++ "%: " ++ decFmt 2 cp50 ++ "ms vs "
    ++ decFmt 2 bp50 ++ "ms baseline"

/-- Info-severity issue text of rule 4 (`compare.py` lines 96-100). -/
def throughputInfoIssue (chg ct bt : ℚ) : String :=
  (if 0 < chg then "📈" else "📉") ++ " Throughput changed by "
    ++ decFmt 1 (chg * 100) ++ "%: " ++ decFmt 2 ct ++ " req/s vs "
    ++ decFmt 2 bt ++ " req/s baseline"

/-- Warn-severity issue text of rule 5 (`compare.py` lines 107-109). -/
def failedCountWarnIssue (cf bf : ℕ) : String :=
  "⚠️  Failed requests increased: " ++ toString cf ++ " vs " ++ toString bf
    ++ " baseline"

/-- Model of `compare_results` (`compare.py` lines 27-111).  Each rule is
evaluated independently; `passed` starts `true` and is set `false` only by
the fail branches of rules 1 and 2, modelled here as the conjunction of the
two per-rule flags. -/
def compare_results (current baseline : ResultsDoc) : Bool × List String :=
  let cer := getErrorRate current
  let ber := getErrorRate baseline
  let r1 : List String × Bool :=
    if cer > 1/100 then ([errorRateFailIssue cer ber], false)
    else if cer > ber * (3/2) then ([errorRateWarnIssue cer ber], true)
    else ([], true)
  let cp95 := getP95 current
  let bp95 := getP95 baseline
  let r2 : List String × Bool :=
    if 0 < bp95 then
      let p95_regression := (cp95 - bp95) / bp95
      if p95_regression > 20/100 then ([p95FailIssue p95_regression cp95 bp95], false)
      else if p95_regression > 10/100 then ([p95WarnIssue p95_regression cp95 bp95], true)
      else ([], true)
    else ([], true)
  let cp50 := getP50 current
  let bp50 := getP50 baseline
  let r3 : List String :=
    if 0 < bp50 then
      let p50_change := (cp50 - bp50) / bp50
      if |p50_change| > 15/100 then [p50InfoIssue p50_change cp50 bp50] else []
    else []
  let ct := getThroughput current
  let bt := getThroughput baseline
  let r4 : List String :=
    if 0 < bt then
      let throughput_change := (ct - bt) / bt
      if |throughput_change| > 15/100 then [throughputInfoIssue throughput_change ct bt]
      else []
    else []
  let cf := getFailed current
  let bf := getFailed baseline
  let r5 : List String := if bf + 5 < cf then [failedCountWarnIssue cf bf] else []
  (r1.2 && r2.2, r1.1 ++ r2.1 ++ r3 ++ r4 ++ r5)

/-! ## Remediation watcher: `src/remediation/watcher.py` -/

/-! Threshold constants of `PerformanceThresholds`
(`watcher.py` lines 34-48). -/

namespace PerformanceThresholds

def P95_LATENCY_WARNING : ℚ := 100
def P95_LATENCY_CRITICAL : ℚ := 150
def P99_LATENCY_CRITICAL : ℚ := 200
def ERROR_RATE_WARNING : ℚ := 1/100
def ERROR_RATE_CRITICAL : ℚ := 5/100
def THROUGHPUT_MIN_WARNING : ℚ := 15
def THROUGHPUT_MIN_CRITICAL : ℚ := 10

end PerformanceThresholds

/-- The `RemediationAction` dataclass (`watcher.py` lines 23-31). -/
structure RemediationAction where
  priority : ℕ
  action_type : String
  description : String
  command : String
  rationale : String
deriving Repr, DecidableEq

def descP95Critical : String := "Scale gateway replicas to handle increased load"
def descP95Warning : String := "Increase gateway replicas"
def descP99Critical : String := "Scale backend replicas for tail latency"
def descErrorCritical : String := "Rollback to previous stable version"
def descErrorWarning : String := "Reduce load by lowering max_tokens"
def descThroughputCritical : String := "Emergency scaling - throughput critically low"
def descThroughputWarning : String := "Investigate throughput degradation"
def descCombined : String := "Combined remediation: scale and rollback"

/-- Action appended when p95 latency is critical (`watcher.py` lines 89-98). -/
def p95CriticalAction (p95_latency : ℚ) : RemediationAction :=
  { priority := 1, action_type := "scale", description := descP95Critical,
    command := "kubectl scale deployment llm-gateway --replicas=5",
    rationale := "P95 latency (" ++ decFmt 2 p95_latency
      ++ "ms) exceeds critical threshold (150.0ms)" }

/-- Action appended when p95 latency reaches the warning threshold only
(`watcher.py` lines 100-109). -/
def p95WarningAction (p95_latency : ℚ) : RemediationAction :=
  { priority := 2, action_type := "scale", description := descP95Warning,
    command := "kubectl scale deployment llm-gateway --replicas=4",
    rationale := "P95 latency (" ++ decFmt 2 p95_latency
      ++ "ms) exceeds warning threshold (100.0ms)" }

/-- Action appended when p99 latency is critical (`watcher.py` lines
113-121). -/
def p99CriticalAction (p99_latency : ℚ) : RemediationAction :=
  { priority := 1, action_type := "scale", description := descP99Critical,
    command := "kubectl scale deployment llm-backend --replicas=5",
    rationale := "P99 latency (" ++ decFmt 2 p99_latency
      ++ "ms) indicates backend bottleneck" }

/-- Action appended when the error rate is critical (`watcher.py` lines
125-135). -/
def errorCriticalAction (error_rate : ℚ) : RemediationAction :=
  { priority := 1, action_type := "rollback", description := descErrorCritical,
    command := "kubectl rollout undo deployment llm-gateway && kubectl rollout undo deployment llm-backend",
    rationale := "Error rate (" ++ decFmt 2 (error_rate * 100)
      ++ "%) exceeds critical threshold (5%)" }

/-- Action appended when the error rate reaches the warning threshold only
(`watcher.py` lines 137-146). -/
def errorWarningAction (error_rate : ℚ) : RemediationAction :=
  { priority := 2, action_type := "config", description := descErrorWarning,
    command := "kubectl patch configmap llm-config -p '\x7b\"data\":\x7b\"MAX_TOKENS\":\"50\"\x7d\x7d'",
    rationale := "Error rate (" ++ decFmt 2 (error_rate * 100)
      ++ "%) indicates system overload" }

/-- Action appended when throughput is critically low (`watcher.py` lines
150-158). -/
def throughputCriticalAction (throughput : ℚ) : RemediationAction :=
  { priority := 1, action_type := "scale", description := descThroughputCritical,
    command := "kubectl scale deployment llm-gateway --replicas=10",
    rationale := "Throughput (" ++ decFmt 2 throughput ++ " req/s) critically low" }

/-- Action appended when throughput is below the warning minimum only
(`watcher.py` lines 160-168). -/
def throughputWarningAction (throughput : ℚ) : RemediationAction :=
  { priority := 3, action_type := "investigate", description := descThroughputWarning,
    command := "kubectl logs -l app=gateway --tail=100",
    rationale := "Throughput (" ++ decFmt 2 throughput ++ " req/s) below expected baseline" }

/-- Action appended by the combined rule (`watcher.py` lines 175-184). -/
def combinedAction : RemediationAction :=
  { priority := 1, action_type := "combined", description := descCombined,
    command := "kubectl scale deployment llm-gateway --replicas=6 && kubectl rollout undo deployment llm-gateway",
    rationale := "Multiple degraded metrics detected - combined approach needed" }

open PerformanceThresholds in
/-- The p95 if/elif pair of `analyze_metrics` (`watcher.py` lines 88-109). -/
def p95Rule (p95_latency : ℚ) : List RemediationAction :=
  if p95_latency ≥ P95_LATENCY_CRITICAL then [p95CriticalAction p95_latency]
  else if p95_latency ≥ P95_LATENCY_WARNING then [p95WarningAction p95_latency]
  else []

open PerformanceThresholds in
/-- The p99 check of `analyze_metrics` (`watcher.py` lines 112-121). -/
def p99Rule (p99_latency : ℚ) : List RemediationAction :=
  if p99_latency ≥ P99_LATENCY_CRITICAL then [p99CriticalAction p99_latency] else []

open PerformanceThresholds in
/-- The error-rate if/elif pair of `analyze_metrics` (`watcher.py` lines
124-146). -/
def errorRateRule (error_rate : ℚ) : List RemediationAction :=
  if error_rate ≥ ERROR_RATE_CRITICAL then [errorCriticalAction error_rate]
  else if error_rate ≥ ERROR_RATE_WARNING then [errorWarningAction error_rate]
  else []

open PerformanceThresholds in
/-- The throughput if/elif pair of `analyze_metrics` (`watcher.py` lines
149-168). -/
def throughputRule (throughput : ℚ) : List RemediationAction :=
  if throughput ≤ THROUGHPUT_MIN_CRITICAL then [throughputCriticalAction throughput]
  else if throughput ≤ THROUGHPUT_MIN_WARNING then [throughputWarningAction throughput]
  else []

open PerformanceThresholds in
/-- The combined-issues check of `analyze_metrics` (`watcher.py` lines
171-184). -/
def combinedRule (p95_latency error_rate : ℚ) : List RemediationAction :=
  if p95_latency ≥ P95_LATENCY_WARNING ∧ error_rate ≥ ERROR_RATE_WARNING then
    [combinedAction]
  else []

/-- Python truthiness of a parsed results document over the modelled keys:
`if not self.results` treats both `None` and the empty dict `{}` as falsy. -/
def docIsEmpty (d : ResultsDoc) : Bool :=
  d.total_requests.isNone && d.error_rate.isNone && d.throughput_rps.isNone
    && d.failed_requests.isNone && d.latency_stats.isNone

/-- Model of `RemediationWatcher.analyze_metrics` (`watcher.py` lines
76-184): the guard `if not self.results: return` yields no actions for an
unloaded (`none`) or empty document; otherwise each metric is read with a
default of 0 and the five rule groups run in source order, appending to
`self.actions` (started empty, so the result is their concatenation). -/
def analyze_metrics (results : Option ResultsDoc) : List RemediationAction :=
  match results with
  | none => []
  | some d =>
      if docIsEmpty d then []
      else
        p95Rule (getP95 d) ++ p99Rule (getP99 d) ++ errorRateRule (getErrorRate d)
          ++ throughputRule (getThroughput d)
          ++ combinedRule (getP95 d) (getErrorRate d)

/-- Model of `RemediationWatcher.should_remediate` (`watcher.py` lines
304-306), over the action list produced by `analyze_metrics`. -/
def should_remediate (actions : List RemediationAction) : Bool :=
  actions.any fun a => a.priority == 1

/-- Successful latencies of an outcome set, sorted ascending — the list over
which `run_benchmark` computes its percentiles (`run_bench.py` lines
172-173). -/
def sortedLatencies (results : List RequestOutcome) : List ℚ :=
  ((results.filter fun r => r.success).map fun r => r.latency_ms).insertionSort (· ≤ ·)

/-- A benchmark summary with the `timestamp` key removed. -/
def dropTimestamp (d : RunDoc) : RunDoc := { d with timestamp := none }

/-! ## Theorems -/

/-- For a positive length `m` and a factor `0 ≤ q < 1`, the nearest-rank index
`⌊m * q⌋` is in range. -/
lemma percentile_idx_lt {m : ℕ} (hm : 1 ≤ m) {q : ℚ} (h1 : q < 1) :
    (⌊(m : ℚ) * q⌋).toNat < m := by
  have hlt : (m : ℚ) * q < (m : ℚ) := by
    have hmpos : (0 : ℚ) < (m : ℚ) := by exact_mod_cast hm
    calc (m : ℚ) * q < (m : ℚ) * 1 := by exact mul_lt_mul_of_pos_left h1 hmpos
      _ = (m : ℚ) := mul_one _
  have hfl : ⌊(m : ℚ) * q⌋ < (m : ℤ) := by
    rw [Int.floor_lt]; push_cast; exact hlt
  omega

/--
C2. `compare_results` sets `passed = false` exactly when a fail-severity
issue triggered: the current error rate exceeds the absolute 1% bound, or a
baseline p95 is available (positive) and the relative p95 regression exceeds
20%.  The warn branch of rule 1, the warn branch of rule 2, and rules 3-5
(p50 drift, throughput drift, failed-count increase) leave `passed`
untouched.
-/
theorem c2_passed_iff_fail (current baseline : ResultsDoc) :
    (compare_results current baseline).1 = false ↔
      (getErrorRate current > 1/100 ∨
        (0 < getP95 baseline ∧
          (getP95 current - getP95 baseline) / getP95 baseline > 20/100)) := by
  unfold compare_results
  dsimp only
  split_ifs with h1 h2 h3 h4 h5 h6 h7 h8 <;> simp_all

/--
C7. `send_request` isolates every transport-level failure inside a
`RequestOutcome`: a timeout produces `success = false`, the error string
`"Request timeout"` and the elapsed wall-clock time as `latency_ms`; any
other exception produces `success = false` with its stringified cause, again
with the elapsed time.  `send_request` is a total function into
`RequestOutcome`, which models that the Python `try/except Exception`
structure returns an outcome dictionary on every path rather than
propagating the exception.
-/
theorem c7_failure_isolation (request_id : ℕ) (elapsed_ms : ℚ) (msg : String) :
    send_request request_id elapsed_ms TransportResult.timeout =
      { request_id := request_id, success := false, latency_ms := elapsed_ms,
        status_code := 0, tokens_per_sec := 0, error := some timeoutMsg } ∧
    send_request request_id elapsed_ms (TransportResult.exc msg) =
      { request_id := request_id, success := false, latency_ms := elapsed_ms,
        status_code := 0, tokens_per_sec := 0, error := some msg } :=
  ⟨rfl, rfl⟩

/--
C5. If no outcome is successful, the aggregation phase of `run_benchmark`
returns the degenerate summary: `error_rate` is exactly 1, there is no
`latency_stats` key, and the `"error": "All requests failed"` marker is
present; no percentile computation is attempted.
-/
theorem c5_degenerate_summary (results : List RequestOutcome)
    (num_requests concurrency : ℕ) (base_url timestamp : String) (dur : ℚ)
    (h : ∀ r ∈ results, r.success = false) :
    (summarize results num_requests base_url timestamp dur concurrency).error_rate = 1 ∧
    (summarize results num_requests base_url timestamp dur concurrency).latency_stats
      = none ∧
    (summarize results num_requests base_url timestamp dur concurrency).errorMsg
      = some allFailedMsg := by
  have hfil : results.filter (fun r => r.success) = [] := by
    rw [List.filter_eq_nil_iff]
    intro a ha
    simp [h a ha]
  unfold summarize
  rw [hfil]
  simp

/-- Witness for C5 at a concrete input: one timed-out request. -/
theorem c5_degenerate_summary_witness :
    (summarize [send_request 1 250 TransportResult.timeout] 1 "u" "t" 1 1).error_rate
      = 1 ∧
    (summarize [send_request 1 250 TransportResult.timeout] 1 "u" "t" 1 1).latency_stats
      = none ∧
    (summarize [send_request 1 250 TransportResult.timeout] 1 "u" "t" 1 1).errorMsg
      = some allFailedMsg :=
  c5_degenerate_summary [send_request 1 250 TransportResult.timeout] 1 1 "u" "t" 1
    (by intro r hr; simp [send_request] at hr; rw [hr])

/--
C6 (counterexample).  The claim asserts that `run_benchmark` validates
`total_requests ≥ 1`, `concurrency ≥ 1` and a non-empty prompt set, rejecting
every violating input, and that in particular an empty prompt set does not
make the prompt-cycling index computation fail.  Both parts are false on the
code, which performs no validation: with an empty prompt list and one
request, `prompts[i % len(prompts)]` raises `ZeroDivisionError` (the index
computation itself fails, modelled by `genRequests = none`), while with
`total_requests = 0` — a violating input — the run is not rejected and
proceeds to a summary.
-/
theorem c6_counterexample :
    genRequests ([] : List Unit) 1 = none ∧
    (run_benchmark (fun _ _ => (1, TransportResult.timeout)) [()] 0 1 "u" "t" 1).isSome
      = true :=
  ⟨rfl, rfl⟩

/--
C6 (amended).  `run_benchmark` performs no input validation.  The only
input condition that stops a run is an empty prompt list together with at
least one request, which makes the prompt-cycling index computation
`i % len(prompts)` fail with an uncaught `ZeroDivisionError`; every other
input — including the precondition-violating `total_requests = 0` — proceeds
to produce a summary.
-/
theorem c6_no_input_validation {α : Type} (net : ℕ → α → ℚ × TransportResult)
    (prompts : List α) (num_requests concurrency : ℕ)
    (base_url timestamp : String) (dur : ℚ) :
    run_benchmark net prompts num_requests concurrency base_url timestamp dur = none ↔
      (prompts = [] ∧ 1 ≤ num_requests) := by
  unfold run_benchmark genRequests
  cases prompts <;> cases num_requests <;> simp

/--
C8 (counterexample).  The claim asserts that aggregating the identical
outcome set (same outcomes, requested total, duration, concurrency) twice
yields byte-identical summaries.  The summary embeds a `timestamp` taken
from the ambient clock at creation (`run_bench.py` line 192), which is not
among the fixed inputs: two aggregation passes over the identical data that
observe different clock readings produce different documents.
-/
theorem c8_counterexample :
    summarize [send_request 1 10 (TransportResult.ok 200 "ok" (some 5))] 1 "u"
        "2024-01-01 00:00:00" 1 1 ≠
      summarize [send_request 1 10 (TransportResult.ok 200 "ok" (some 5))] 1 "u"
        "2024-01-01 00:00:01" 1 1 := by
  intro h
  have ht := congrArg RunDoc.timestamp h
  simp [summarize, send_request] at ht

/--
C8 (amended).  The aggregation phase is deterministic in all of its inputs:
on the identical outcome set, requested total, duration and concurrency it
yields summaries that agree on every field except the embedded wall-clock
`timestamp`, and if the two passes also observe the same clock reading the
summaries are byte-identical.
-/
theorem c8_deterministic (results : List RequestOutcome)
    (num_requests concurrency : ℕ) (base_url ts1 ts2 : String) (dur : ℚ) :
    dropTimestamp (summarize results num_requests base_url ts1 dur concurrency) =
      dropTimestamp (summarize results num_requests base_url ts2 dur concurrency) ∧
    (ts1 = ts2 →
      summarize results num_requests base_url ts1 dur concurrency =
        summarize results num_requests base_url ts2 dur concurrency) := by
  constructor
  · unfold summarize
    by_cases hc : (results.filter fun r => r.success).isEmpty <;>
      simp [hc, dropTimestamp]
  · intro h
    rw [h]

/-- Witness for C8 at a concrete input. -/
theorem c8_deterministic_witness :
    dropTimestamp (summarize [send_request 1 10 (TransportResult.ok 200 "ok" (some 5))]
        1 "u" "a" 1 1) =
      dropTimestamp (summarize [send_request 1 10 (TransportResult.ok 200 "ok" (some 5))]
        1 "u" "b" 1 1) ∧
    summarize [send_request 1 10 (TransportResult.ok 200 "ok" (some 5))] 1 "u" "a" 1 1 =
      summarize [send_request 1 10 (TransportResult.ok 200 "ok" (some 5))] 1 "u" "a" 1 1 :=
  ⟨(c8_deterministic [send_request 1 10 (TransportResult.ok 200 "ok" (some 5))]
      1 1 "u" "a" "b" 1).1,
   (c8_deterministic [send_request 1 10 (TransportResult.ok 200 "ok" (some 5))]
      1 1 "u" "a" "a" 1).2 rfl⟩

/-- On a list of length at least 1, the clamped nearest-rank selection of the
source (`latencies[idx] if idx < n else latencies[-1]`) agrees with the
specification's `min (floor (n * q)) (n - 1)` index. -/
lemma nearest_rank_eq (L : List ℚ) (q : ℚ) (hq : q < 1) (hlen : 1 ≤ L.length) :
    (if (⌊(L.length : ℚ) * q⌋).toNat < L.length
      then L.getD (⌊(L.length : ℚ) * q⌋).toNat 0
      else L.getD (L.length - 1) 0)
    = L.getD (min ((⌊(L.length : ℚ) * q⌋).toNat) (L.length - 1)) 0 := by
  have hlt := percentile_idx_lt hlen hq
  rw [if_pos hlt]
  congr 1
  omega

/--
C1 (counterexample).  The claim says the p95 value returned by the aggregator
is the element of the ascending latency list at index
`min (floor (n * 0.95)) (n - 1)`.  The aggregator stores that element rounded
to two decimal places (`round(p95_latency, 2)`, `run_bench.py` line 207): for
a single successful latency of `3.141` ms the selected element is `3.141`
but the returned `p95_ms` is `3.14`.
-/
theorem c1_counterexample :
    ((summarize [send_request 1 (3141/1000) (TransportResult.ok 200 "ok" (some 5))]
        1 "u" "t" 1 1).latency_stats.map fun s => s.p95_ms) = some (157/50) ∧
    (sortedLatencies [send_request 1 (3141/1000) (TransportResult.ok 200 "ok" (some 5))]).getD
        (min ((⌊((sortedLatencies [send_request 1 (3141/1000)
              (TransportResult.ok 200 "ok" (some 5))]).length : ℚ) * (95/100)⌋).toNat)
          ((sortedLatencies [send_request 1 (3141/1000)
              (TransportResult.ok 200 "ok" (some 5))]).length - 1)) 0 = 3141/1000 ∧
    (157/50 : ℚ) ≠ 3141/1000 := by
  refine ⟨?_, ?_, by norm_num⟩
  · simp [summarize, send_request, pyMedian, roundQ, rnearest,
      List.insertionSort, List.orderedInsert]
    norm_num [Int.fract]
  · simp [sortedLatencies, send_request, List.insertionSort, List.orderedInsert]

/--
C1 (amended).  For every non-empty set of successful latencies the aggregator
sorts them ascending and returns, rounded to two decimal places, the
nearest-rank percentiles: `p95_ms` and `p99_ms` are the elements at index
`min (floor (n * q)) (n - 1)` for `q = 0.95, 0.99` (no interpolation between
ranks), and `p50_ms` is the statistical median of the list, each passed
through `round(·, 2)`.
-/
theorem c1_percentiles (results : List RequestOutcome)
    (num_requests concurrency : ℕ) (base_url timestamp : String) (dur : ℚ)
    (h : (results.filter fun r => r.success) ≠ []) :
    ∃ stats : LatencyStats,
      (summarize results num_requests base_url timestamp dur concurrency).latency_stats
        = some stats ∧
      stats.p95_ms = roundQ 2 ((sortedLatencies results).getD
        (min ((⌊((sortedLatencies results).length : ℚ) * (95/100)⌋).toNat)
          ((sortedLatencies results).length - 1)) 0) ∧
      stats.p99_ms = roundQ 2 ((sortedLatencies results).getD
        (min ((⌊((sortedLatencies results).length : ℚ) * (99/100)⌋).toNat)
          ((sortedLatencies results).length - 1)) 0) ∧
      stats.p50_ms = roundQ 2 (pyMedian (sortedLatencies results)) := by
  have hlen : 1 ≤ (sortedLatencies results).length := by
    unfold sortedLatencies
    rw [List.length_insertionSort, List.length_map]
    exact List.length_pos.mpr h
  have hne : (results.filter fun r => r.success).isEmpty = false := by
    simp [List.isEmpty_iff, h]
  unfold summarize
  rw [if_neg (by simp [hne])]
  refine ⟨_, rfl, ?_, ?_, ?_⟩
  · unfold sortedLatencies at hlen ⊢
    exact congrArg (roundQ 2) (nearest_rank_eq _ _ (by norm_num) hlen)
  · unfold sortedLatencies at hlen ⊢
    exact congrArg (roundQ 2) (nearest_rank_eq _ _ (by norm_num) hlen)
  · unfold sortedLatencies
    rfl

/-- Witness for C1 at a concrete input: two successful latencies 20 and 10,
sorted to `[10, 20]`; both percentile indices select index 1. -/
theorem c1_percentiles_witness :
    ∃ stats : LatencyStats,
      (summarize [send_request 1 20 (TransportResult.ok 200 "ok" (some 5)),
          send_request 2 10 (TransportResult.ok 200 "ok" (some 5))]
        2 "u" "t" 1 1).latency_stats = some stats ∧
      stats.p95_ms = roundQ 2 ((sortedLatencies [send_request 1 20 (TransportResult.ok 200 "ok" (some 5)),
          send_request 2 10 (TransportResult.ok 200 "ok" (some 5))]).getD
        (min ((⌊((sortedLatencies [send_request 1 20 (TransportResult.ok 200 "ok" (some 5)),
            send_request 2 10 (TransportResult.ok 200 "ok" (some 5))]).length : ℚ) * (95/100)⌋).toNat)
          ((sortedLatencies [send_request 1 20 (TransportResult.ok 200 "ok" (some 5)),
            send_request 2 10 (TransportResult.ok 200 "ok" (some 5))]).length - 1)) 0) ∧
      stats.p99_ms = roundQ 2 ((sortedLatencies [send_request 1 20 (TransportResult.ok 200 "ok" (some 5)),
          send_request 2 10 (TransportResult.ok 200 "ok" (some 5))]).getD
        (min ((⌊((sortedLatencies [send_request 1 20 (TransportResult.ok 200 "ok" (some 5)),
            send_request 2 10 (TransportResult.ok 200 "ok" (some 5))]).length : ℚ) * (99/100)⌋).toNat)
          ((sortedLatencies [send_request 1 20 (TransportResult.ok 200 "ok" (some 5)),
            send_request 2 10 (TransportResult.ok 200 "ok" (some 5))]).length - 1)) 0) ∧
      stats.p50_ms = roundQ 2 (pyMedian (sortedLatencies
        [send_request 1 20 (TransportResult.ok 200 "ok" (some 5)),
         send_request 2 10 (TransportResult.ok 200 "ok" (some 5))])) :=
  c1_percentiles
    [send_request 1 20 (TransportResult.ok 200 "ok" (some 5)),
     send_request 2 10 (TransportResult.ok 200 "ok" (some 5))]
    2 1 "u" "t" 1 (by simp [send_request])

/-- The external world of the C4 counterexample run: requests 1 and 2 succeed,
request 3 raises. -/
def c4Net : ℕ → Unit → ℚ × TransportResult := fun i _ =>
  if i = 3 then (10, TransportResult.exc "boom")
  else (10, TransportResult.ok 200 "ok" (some 5))

/-- The outcome list produced by the C4 counterexample run. -/
def c4CtrOutcomes : List RequestOutcome :=
  [send_request 1 10 (TransportResult.ok 200 "ok" (some 5)),
   send_request 2 10 (TransportResult.ok 200 "ok" (some 5)),
   send_request 3 10 (TransportResult.exc "boom")]

/--
C4 (counterexample).  The claim says the summary's `error_rate` field equals
`failed_requests / total_requests`.  The source stores
`round(error_rate, 4)` (`run_bench.py` line 200): a completed run of 3
requests with 1 failure stores `0.3333`, which differs from `1/3`.
-/
theorem c4_counterexample :
    ∃ doc : RunDoc, run_benchmark c4Net [()] 3 1 "u" "t" 1 = some doc ∧
      doc.total_requests = 3 ∧ doc.failed_requests = 1 ∧
      doc.error_rate = 3333/10000 ∧
      (3333/10000 : ℚ) ≠ (1 : ℚ) / 3 := by
  refine ⟨summarize c4CtrOutcomes 3 "u" "t" 1 1, rfl, ?_, ?_, ?_, by norm_num⟩
  · simp [summarize, c4CtrOutcomes, send_request]
  · simp [summarize, c4CtrOutcomes, send_request]
  · simp [summarize, c4CtrOutcomes, send_request, roundQ, rnearest]
    norm_num [Int.fract]

/--
C4 (amended).  For every completed run with at least one requested request,
the produced summary satisfies
`successful_requests + failed_requests = total_requests`, and its
`error_rate` field equals `failed_requests` divided by the total number of
requested requests, rounded to four decimal places (`round(·, 4)`,
half-to-even) — exactly `failed/total` whenever that quotient has at most
four decimal places, e.g. for `total = 10` with `failed = 0, 3, 10`.  This
holds for any number of successes including zero: in the all-failed
degenerate branch the stored `error_rate` is `1.0 = round(n/n, 4)`.
-/
theorem c4_error_rate (α : Type) (net : ℕ → α → ℚ × TransportResult)
    (prompts : List α) (num_requests concurrency : ℕ)
    (base_url timestamp : String) (dur : ℚ) (doc : RunDoc)
    (hn : 1 ≤ num_requests)
    (h : run_benchmark net prompts num_requests concurrency base_url timestamp dur
      = some doc) :
    doc.successful_requests + doc.failed_requests = doc.total_requests ∧
    doc.error_rate
      = roundQ 4 ((doc.failed_requests : ℚ) / (doc.total_requests : ℚ)) := by
  unfold run_benchmark at h
  cases hg : genRequests prompts num_requests with
  | none => rw [hg] at h; simp at h
  | some reqs =>
    rw [hg] at h
    simp only [Option.map_some', Option.some_inj] at h
    have hr : reqs.length = num_requests := by
      cases prompts with
      | nil =>
          unfold genRequests at hg
          split_ifs at hg with h0
          omega
      | cons p ps =>
          unfold genRequests at hg
          simp only [Option.some_inj] at hg
          rw [← hg, List.length_map, List.length_range]
    set res := reqs.map (fun q => send_request q.1 (net q.1 q.2).1 (net q.1 q.2).2)
      with hres
    have hreslen : res.length = num_requests := by
      rw [hres, List.length_map, hr]
    subst h
    unfold summarize
    by_cases hc : (res.filter fun r => r.success).isEmpty = true
    · have hall : res.filter (fun r => !r.success) = res := by
        rw [List.filter_eq_self]
        intro a ha
        have := List.isEmpty_iff.mp hc
        rw [List.filter_eq_nil_iff] at this
        simpa using this a ha
      rw [if_pos hc]
      refine ⟨by simp [hall, hreslen], ?_⟩
      have hq : ((res.filter fun r => !r.success).length : ℚ) / (num_requests : ℚ) = 1 := by
        rw [hall, hreslen]
        exact div_self (by exact_mod_cast Nat.one_le_iff_ne_zero.mp hn)
      simp only [hq]
      norm_num [roundQ, rnearest, Int.fract]
    · rw [if_neg hc]
      refine ⟨?_, rfl⟩
      simpa using (List.length_eq_length_filter_add (l := res) (fun r => r.success)).symm.trans hreslen

/-- Witness for C4 at a concrete input: a completed run of 2 requests, both
successful. -/
def c4WitDoc : RunDoc :=
  summarize [send_request 1 10 (TransportResult.ok 200 "ok" (some 5)),
             send_request 2 10 (TransportResult.ok 200 "ok" (some 5))] 2 "u" "t" 1 1

/-- Witness for C4: the amended invariant at the concrete 2-request run. -/
theorem c4_error_rate_witness :
    c4WitDoc.successful_requests + c4WitDoc.failed_requests = c4WitDoc.total_requests ∧
    c4WitDoc.error_rate
      = roundQ 4 ((c4WitDoc.failed_requests : ℚ) / (c4WitDoc.total_requests : ℚ)) :=
  c4_error_rate Unit (fun _ _ => (10, TransportResult.ok 200 "ok" (some 5))) [()] 2 1
    "u" "t" 1 c4WitDoc (by norm_num) rfl

lemma p95CriticalAction_description (x : ℚ) :
    (p95CriticalAction x).description = descP95Critical := rfl

lemma p95CriticalAction_priority (x : ℚ) : (p95CriticalAction x).priority = 1 := rfl

lemma p95WarningAction_description (x : ℚ) :
    (p95WarningAction x).description = descP95Warning := rfl

lemma p95WarningAction_priority (x : ℚ) : (p95WarningAction x).priority = 2 := rfl

lemma p99CriticalAction_description (x : ℚ) :
    (p99CriticalAction x).description = descP99Critical := rfl

lemma p99CriticalAction_priority (x : ℚ) : (p99CriticalAction x).priority = 1 := rfl

lemma errorCriticalAction_description (x : ℚ) :
    (errorCriticalAction x).description = descErrorCritical := rfl

lemma errorCriticalAction_priority (x : ℚ) : (errorCriticalAction x).priority = 1 := rfl

lemma errorWarningAction_description (x : ℚ) :
    (errorWarningAction x).description = descErrorWarning := rfl

lemma errorWarningAction_priority (x : ℚ) : (errorWarningAction x).priority = 2 := rfl

lemma throughputCriticalAction_description (x : ℚ) :
    (throughputCriticalAction x).description = descThroughputCritical := rfl

lemma throughputCriticalAction_priority (x : ℚ) :
    (throughputCriticalAction x).priority = 1 := rfl

lemma throughputWarningAction_description (x : ℚ) :
    (throughputWarningAction x).description = descThroughputWarning := rfl

lemma throughputWarningAction_priority (x : ℚ) :
    (throughputWarningAction x).priority = 3 := rfl

lemma combinedAction_description : combinedAction.description = descCombined := rfl

lemma combinedAction_priority : combinedAction.priority = 1 := rfl

/-- The p95 if/elif pair emits the critical action, the warning action, or
nothing — never more than one action. -/
lemma p95Rule_cases (x : ℚ) :
    p95Rule x = [] ∨ p95Rule x = [p95CriticalAction x] ∨
      p95Rule x = [p95WarningAction x] := by
  unfold p95Rule
  split_ifs <;> simp

/-- The p99 check emits at most one action. -/
lemma p99Rule_cases (x : ℚ) :
    p99Rule x = [] ∨ p99Rule x = [p99CriticalAction x] := by
  unfold p99Rule
  split_ifs <;> simp

/-- The error-rate if/elif pair emits at most one action. -/
lemma errorRateRule_cases (x : ℚ) :
    errorRateRule x = [] ∨ errorRateRule x = [errorCriticalAction x] ∨
      errorRateRule x = [errorWarningAction x] := by
  unfold errorRateRule
  split_ifs <;> simp

/-- The throughput if/elif pair emits at most one action. -/
lemma throughputRule_cases (x : ℚ) :
    throughputRule x = [] ∨ throughputRule x = [throughputCriticalAction x] ∨
      throughputRule x = [throughputWarningAction x] := by
  unfold throughputRule
  split_ifs <;> simp

/-- The combined check emits at most one action. -/
lemma combinedRule_cases (x y : ℚ) :
    combinedRule x y = [] ∨ combinedRule x y = [combinedAction] := by
  unfold combinedRule
  split_ifs <;> simp

/-- On a loaded non-empty document, `analyze_metrics` is the concatenation of
the five rule groups over the defaulted metric readings. -/
lemma analyze_metrics_eq (d : ResultsDoc) (hne : docIsEmpty d = false) :
    analyze_metrics (some d) =
      p95Rule (getP95 d) ++ p99Rule (getP99 d) ++ errorRateRule (getErrorRate d)
        ++ throughputRule (getThroughput d)
        ++ combinedRule (getP95 d) (getErrorRate d) := by
  simp only [analyze_metrics]
  rw [if_neg (by simp [hne])]

/--
C3. On a summary with p95 = 160 ms and error rate 0.06 (the other metrics
nominal: p99 below its 200 ms critical threshold and throughput above its
15 rps warning minimum), `analyze_metrics` produces exactly three actions —
the priority-1 p95-critical scale action, the priority-1 error-critical
rollback action, and the priority-1 combined action — and
`should_remediate()` is true; in general `should_remediate()` is true iff at
least one produced action has priority 1.
-/
theorem c3_critical_scenario :
    (∀ doc : ResultsDoc, getP95 doc = 160 → getErrorRate doc = 6/100 →
        getP99 doc < 200 → 15 < getThroughput doc →
        analyze_metrics (some doc)
          = [p95CriticalAction 160, errorCriticalAction (6/100), combinedAction] ∧
        should_remediate (analyze_metrics (some doc)) = true) ∧
    (∀ actions : List RemediationAction,
        should_remediate actions = true ↔ ∃ a ∈ actions, a.priority = 1) := by
  constructor
  · intro doc h95 her h99 ht
    have hl : doc.latency_stats ≠ none := by
      intro hnone
      unfold getP95 getLatStats at h95
      rw [hnone] at h95
      norm_num at h95
    have hne : docIsEmpty doc = false := by
      cases hls : doc.latency_stats with
      | none => exact absurd hls hl
      | some s => simp [docIsEmpty, hls]
    have e1 : p95Rule (getP95 doc) = [p95CriticalAction 160] := by
      rw [h95]
      unfold p95Rule
      rw [if_pos (by norm_num [PerformanceThresholds.P95_LATENCY_CRITICAL])]
    have e2 : p99Rule (getP99 doc) = [] := by
      unfold p99Rule
      rw [if_neg]
      unfold PerformanceThresholds.P99_LATENCY_CRITICAL
      exact not_le.mpr h99
    have e3 : errorRateRule (getErrorRate doc) = [errorCriticalAction (6/100)] := by
      rw [her]
      unfold errorRateRule
      rw [if_pos (by norm_num [PerformanceThresholds.ERROR_RATE_CRITICAL])]
    have e4 : throughputRule (getThroughput doc) = [] := by
      unfold throughputRule
      rw [if_neg, if_neg]
      · unfold PerformanceThresholds.THROUGHPUT_MIN_WARNING
        exact not_le.mpr ht
      · unfold PerformanceThresholds.THROUGHPUT_MIN_CRITICAL
        exact not_le.mpr (lt_trans (by norm_num) ht)
    have e5 : combinedRule (getP95 doc) (getErrorRate doc) = [combinedAction] := by
      rw [h95, her]
      unfold combinedRule
      rw [if_pos]
      exact ⟨by norm_num [PerformanceThresholds.P95_LATENCY_WARNING],
        by norm_num [PerformanceThresholds.ERROR_RATE_WARNING]⟩
    rw [analyze_metrics_eq doc hne, e1, e2, e3, e4, e5]
    exact ⟨rfl, by simp [should_remediate, p95CriticalAction]⟩
  · intro actions
    simp [should_remediate, List.any_eq_true]

/-- A results document realising the C3 scenario: p95 = 160, error rate 0.06,
p99 and throughput nominal. -/
def c3Doc : ResultsDoc :=
  { total_requests := some 10, error_rate := some (6/100), throughput_rps := some 30,
    failed_requests := some 0,
    latency_stats := some { p50_ms := some 50, p95_ms := some 160, p99_ms := some 180 } }

/-- Witness for C3 at the concrete scenario document. -/
theorem c3_critical_scenario_witness :
    analyze_metrics (some c3Doc)
      = [p95CriticalAction 160, errorCriticalAction (6/100), combinedAction] ∧
    should_remediate (analyze_metrics (some c3Doc)) = true :=
  c3_critical_scenario.1 c3Doc rfl rfl
    (by norm_num [getP99, getLatStats, c3Doc])
    (by norm_num [getThroughput, c3Doc])

set_option maxHeartbeats 2000000 in
/--
C9. One analysis pass produces at most 5 actions (at most one per rule
family), every produced action has priority 1, 2 or 3, and within each
mutually exclusive if/elif pair (p95, error rate, throughput) the critical
variant suppresses the warning variant: the output never contains both
members of a pair.
-/
theorem c9_action_bounds (results : Option ResultsDoc) :
    (analyze_metrics results).length ≤ 5 ∧
    (∀ a ∈ analyze_metrics results, a.priority = 1 ∨ a.priority = 2 ∨ a.priority = 3) ∧
    ¬ ((∃ a ∈ analyze_metrics results, a.description = descP95Critical) ∧
       (∃ a ∈ analyze_metrics results, a.description = descP95Warning)) ∧
    ¬ ((∃ a ∈ analyze_metrics results, a.description = descErrorCritical) ∧
       (∃ a ∈ analyze_metrics results, a.description = descErrorWarning)) ∧
    ¬ ((∃ a ∈ analyze_metrics results, a.description = descThroughputCritical) ∧
       (∃ a ∈ analyze_metrics results, a.description = descThroughputWarning)) := by
  cases results with
  | none => simp [analyze_metrics]
  | some d =>
    by_cases he : docIsEmpty d = true
    · simp only [analyze_metrics]
      rw [if_pos he]
      simp
    · rw [analyze_metrics_eq d (by simpa using he)]
      rcases p95Rule_cases (getP95 d) with h1 | h1 | h1 <;>
        rcases p99Rule_cases (getP99 d) with h2 | h2 <;>
        rcases errorRateRule_cases (getErrorRate d) with h3 | h3 | h3 <;>
        rcases throughputRule_cases (getThroughput d) with h4 | h4 | h4 <;>
        rcases combinedRule_cases (getP95 d) (getErrorRate d) with h5 | h5 <;>
        rw [h1, h2, h3, h4, h5] <;>
        simp [p95CriticalAction_description, p95CriticalAction_priority,
          p95WarningAction_description, p95WarningAction_priority,
          p99CriticalAction_description, p99CriticalAction_priority,
          errorCriticalAction_description, errorCriticalAction_priority,
          errorWarningAction_description, errorWarningAction_priority,
          throughputCriticalAction_description, throughputCriticalAction_priority,
          throughputWarningAction_description, throughputWarningAction_priority,
          combinedAction_description, combinedAction_priority,
          descP95Critical, descP95Warning, descP99Critical, descErrorCritical,
          descErrorWarning, descThroughputCritical, descThroughputWarning,
          descCombined]

/--
C10. When the results document lacks metric keys, `analyze_metrics` reads 0
for each missing metric: with `latency_stats` and `throughput_rps` absent (as
in the degenerate all-failed summary), p95, p99 and throughput all read as 0,
the throughput reading 0 ≤ 10 triggers the priority-1 emergency-scale
action, and no latency-rule action (p95 critical, p95 warning, p99) is
produced.
-/
theorem c10_missing_metrics_default (doc : ResultsDoc)
    (hl : doc.latency_stats = none) (ht : doc.throughput_rps = none)
    (hne : docIsEmpty doc = false) :
    getP95 doc = 0 ∧ getP99 doc = 0 ∧ getThroughput doc = 0 ∧
    throughputCriticalAction 0 ∈ analyze_metrics (some doc) ∧
    (throughputCriticalAction 0).priority = 1 ∧
    (∀ a ∈ analyze_metrics (some doc),
      a.description ≠ descP95Critical ∧ a.description ≠ descP95Warning ∧
        a.description ≠ descP99Critical) := by
  have h95 : getP95 doc = 0 := by
    unfold getP95 getLatStats
    rw [hl]
    rfl
  have h99 : getP99 doc = 0 := by
    unfold getP99 getLatStats
    rw [hl]
    rfl
  have hthr : getThroughput doc = 0 := by
    unfold getThroughput
    rw [ht]
    rfl
  have e1 : p95Rule 0 = [] := by
    unfold p95Rule
    rw [if_neg (by norm_num [PerformanceThresholds.P95_LATENCY_CRITICAL]),
      if_neg (by norm_num [PerformanceThresholds.P95_LATENCY_WARNING])]
  have e2 : p99Rule 0 = [] := by
    unfold p99Rule
    rw [if_neg (by norm_num [PerformanceThresholds.P99_LATENCY_CRITICAL])]
  have e4 : throughputRule 0 = [throughputCriticalAction 0] := by
    unfold throughputRule
    rw [if_pos (by norm_num [PerformanceThresholds.THROUGHPUT_MIN_CRITICAL])]
  have e5 : combinedRule 0 (getErrorRate doc) = [] := by
    unfold combinedRule
    rw [if_neg]
    intro hcon
    have := hcon.1
    norm_num [PerformanceThresholds.P95_LATENCY_WARNING] at this
  refine ⟨h95, h99, hthr, ?_, rfl, ?_⟩
  · rw [analyze_metrics_eq doc hne, h95, h99, hthr, e1, e2, e4, e5]
    simp
  · intro a ha
    rw [analyze_metrics_eq doc hne, h95, h99, hthr, e1, e2, e4, e5] at ha
    simp only [List.nil_append, List.append_nil, List.mem_append] at ha
    rcases ha with ha | ha
    · rcases errorRateRule_cases (getErrorRate doc) with h3 | h3 | h3 <;>
        rw [h3] at ha <;>
        simp_all [errorCriticalAction, errorWarningAction, descErrorCritical,
          descErrorWarning, descP95Critical, descP95Warning, descP99Critical]
    · simp_all [throughputCriticalAction, descThroughputCritical,
        descP95Critical, descP95Warning, descP99Critical]

/-- The degenerate-style document of the C10 witness: counts and error rate
present, latency statistics and throughput absent. -/
def c10Doc : ResultsDoc :=
  { total_requests := some 3, error_rate := some 1, throughput_rps := none,
    failed_requests := some 3, latency_stats := none }

/-- Witness for C10 at the concrete degenerate-style document. -/
theorem c10_missing_metrics_default_witness :
    getP95 c10Doc = 0 ∧ getP99 c10Doc = 0 ∧ getThroughput c10Doc = 0 ∧
    throughputCriticalAction 0 ∈ analyze_metrics (some c10Doc) ∧
    (throughputCriticalAction 0).priority = 1 ∧
    (∀ a ∈ analyze_metrics (some c10Doc),
      a.description ≠ descP95Critical ∧ a.description ≠ descP95Warning ∧
        a.description ≠ descP99Critical) :=
  c10_missing_metrics_default c10Doc rfl rfl rfl

end MLOps
